import Mathlib

/-!
Verification development for the pix-api repository.

The repository has two revisions of the same service:
- src/app.py         (main revision: poll pipeline, device registry, notifier with retry)
- src/backend/app.py (backend revision: poll pipeline with TTS, notifier without retry)

This file gives a shallow embedding of the core logic of both revisions:
the per-payment decision procedure of buscar_pagamentos_once, the dedup
store load/save helpers, the notifier functions, the device intake routes
(heartbeat, event, log), the status routes, and a small interleaving
model of the locking structure of the poll pipeline.

External collaborators (the HTTP transport, json.load, datetime parsing)
are modelled as explicit function parameters, since they are library or
network effects outside the repository.  Everything else is translated
directly from the Python source.
-/

/-- Boolean membership of a string in a list, modelling the Python test
`payment_id in processed_ids`.  The store is modelled as a list of the
identifiers that have been inserted. -/
def memStr (s : List String) (x : String) : Bool :=
  match s with
  | [] => false
  | y :: t => if y = x then true else memStr t x

/-- Observable actions of one pipeline run on one batch element:
inserting an identifier into the dedup store, persisting the store
(save_processed), and invoking the notifier for an identifier. -/
inductive Act where
  | insert (id : String)
  | persist
  | notify (id : String)
deriving DecidableEq, Repr

/-- One element of the MercadoPago search results, as read by the code.
Fields the code calls .get on; absent JSON keys are none.
payment_type_id appears in the specification data model but is never
read by either revision; transaction_amount and payer only feed log
messages and the TTS text, so they are omitted from the model. -/
structure Payment where
  id : Option String
  status : Option String
  payment_method_id : Option String
  payment_type_id : Option String
deriving DecidableEq, Repr

/-- Python str() applied to an optional string value: str(None) is the
four character string "None". Models `payment_id = str(pagamento.get("id"))`. -/
def pyStr : Option String → String
  | none => "None"
  | some s => s

/-- Per-element body of buscar_pagamentos_once in src/app.py
(lines 248-276): skip when the id is missing or falsy, skip when the id
is already in processed_ids, then if status == "approved" and
payment_method_id == "pix" add the id to the store, persist, and notify.
Returns the new store and the list of actions performed. -/
def processElement (store : List String) (p : Payment) : List String × List Act :=
  match p.id with
  | none => (store, [])
  | some pid =>
    if pid = "" then (store, [])
    else if memStr store pid = true then (store, [])
    else if p.status = some "approved" ∧ p.payment_method_id = some "pix" then
      (pid :: store, [Act.insert pid, Act.persist, Act.notify pid])
    else (store, [])

/-- Per-element body of buscar_pagamentos_once in src/backend/app.py
(lines 94-103): pid = str(p.get("id")) is computed before the emptiness
test, so a missing id yields the string "None" which passes the
`if not pid` guard. -/
def processElementB (store : List String) (p : Payment) : List String × List Act :=
  let pid := pyStr p.id
  if pid = "" ∨ memStr store pid = true then (store, [])
  else if p.status = some "approved" ∧ p.payment_method_id = some "pix" then
    (pid :: store, [Act.insert pid, Act.persist, Act.notify pid])
  else (store, [])

/-- Number of notifier invocations in a list of actions. -/
def notifyCount : List Act → Nat
  | [] => 0
  | Act.notify _ :: rest => 1 + notifyCount rest
  | _ :: rest => notifyCount rest

/-- Run the per-element procedure n times on the same payment, threading
the store and summing the notifier invocations.  Models delivering the
same event to the pipeline n times. -/
def iterateWith (f : List String → Payment → List String × List Act) :
    Nat → List String → Payment → List String × Nat
  | 0, s, _ => (s, 0)
  | Nat.succ n, s, p =>
    let r := f s p
    let rest := iterateWith f n r.1 p
    (rest.1, notifyCount r.2 + rest.2)

/-- Replay the store mutations of a list of actions on a starting store. -/
def replayStore (s : List String) : List Act → List String
  | [] => s
  | Act.insert i :: rest => replayStore (i :: s) rest
  | _ :: rest => replayStore s rest

/-- Lowercase a character list, modelling Python str.lower on ASCII data. -/
def lowerList (l : List Char) : List Char := l.map Char.toLower

/-- pat occurs at the head of s (contiguous match from position zero). -/
def listLePat : List Char → List Char → Bool
  | [], _ => true
  | _ :: _, [] => false
  | a :: pa, b :: sb => if a = b then listLePat pa sb else false

/-- pat occurs somewhere in s as a contiguous sublist. -/
def listSubOcc (pat : List Char) : List Char → Bool
  | [] => pat.isEmpty
  | b :: t => if listLePat pat (b :: t) then true else listSubOcc pat t

/-- Modelled from the spec: the classification rule as the specification
words it.  status, lowercased, must be one of approved, paid, paid_off,
and the substring pix must occur case-insensitively in the payment
method or the payment type.  Used only to compare the spec wording with
what the code actually does. -/
def spec_qualifies (status method ptype : String) : Bool :=
  let st := lowerList status.data
  decide ((st = "approved".data ∨ st = "paid".data ∨ st = "paid_off".data)
    ∧ (listSubOcc "pix".data (lowerList method.data) = true
       ∨ listSubOcc "pix".data (lowerList ptype.data) = true))

/-- Outcome of one HTTP exchange with the device transport: a response
with a status code, or a raised requests exception. -/
inductive ReqOutcome where
  | resp (code : Nat)
  | exc
deriving DecidableEq, Repr

/-- The success test of both notifier functions: r.status_code in (200, 204);
a raised exception is never a success. -/
def attemptSucceeds : ReqOutcome → Bool
  | ReqOutcome.resp c => c == 200 || c == 204
  | ReqOutcome.exc => false

/-- The retry loop of notify_esp_play: fuel is the number of attempts
still allowed, made is the number of attempts already made.  The
transport t gives the outcome of attempt number k (1-based). -/
def notifyGo (t : Nat → ReqOutcome) : Nat → Nat → Bool × Nat
  | 0, made => (false, made)
  | Nat.succ fuel, made =>
    if attemptSucceeds (t (made + 1)) then (true, made + 1)
    else notifyGo t fuel (made + 1)

/-- notify_esp_play in src/app.py (lines 72-91): up to maxAttempts
sequential attempts, returning True on the first 200 or 204 response and
False after the loop exhausts.  Result: (ok, number of attempts made). -/
def notify_esp_play (t : Nat → ReqOutcome) (maxAttempts : Nat) : Bool × Nat :=
  notifyGo t maxAttempts 0

/-- Default of the NOTIFY_RETRY environment variable in src/app.py. -/
def NOTIFY_RETRY_default : Nat := 2

/-- notificar_esp in src/backend/app.py (lines 51-62): a single POST in
a try/except, no retry loop.  Result: (ok, number of attempts made). -/
def notificar_esp (t : Nat → ReqOutcome) : Bool × Nat :=
  (attemptSucceeds (t 1), 1)

/-- The body of load_processed in src/app.py before the except handler:
a missing file leaves the set alone, a present file is parsed by
json.load (modelled by the parse parameter; parse c = none means the
content is corrupt and json.load raises). -/
def load_body (parse : String → Option (List String))
    (prev : List String) (file : Option String) : Except Unit (List String) :=
  match file with
  | none => Except.ok prev
  | some c =>
    match parse c with
    | some arr => Except.ok arr
    | none => Except.error ()

/-- load_processed in src/app.py (lines 49-58): the whole body is inside
try/except, so a parse failure is caught and the previous value of
processed_ids (empty at startup) is kept.  Total function: never raises. -/
def load_processed (parse : String → Option (List String))
    (prev : List String) (file : Option String) : List String :=
  match load_body parse prev file with
  | Except.ok s => s
  | Except.error _ => prev

/-- load_processed in src/backend/app.py (lines 27-31): no try/except;
a present but unparsable file makes json.load raise, and the exception
propagates (Except.error).  A valid file updates the set in place. -/
def load_processed_backend (parse : String → Option (List String))
    (prev : List String) (file : Option String) : Except Unit (List String) :=
  match file with
  | none => Except.ok prev
  | some c =>
    match parse c with
    | some arr => Except.ok (prev ++ arr)
    | none => Except.error ()

/-- The JSON body of a device intake request, as read with data.get;
absent keys are none.  ty models the key named type. -/
structure IntakeBody where
  device_id : Option String
  ip : Option String
  rssi : Option Int
  uptime_ms : Option Int
  debug : Option Bool
  last_pix_id : Option String
  ty : Option String
  payment_id : Option String
  message : Option String
deriving DecidableEq, Repr

/-- The empty dict produced by request.get_json(silent=True) or when the
body is not JSON. -/
def emptyBody : IntakeBody :=
  ⟨none, none, none, none, none, none, none, none, none⟩

/-- The record stored in last_seen[dev] by the heartbeat route.  ts is
the datetime.utcnow().isoformat() string. -/
structure HeartbeatRec where
  ts : String
  ip : Option String
  rssi : Option Int
  uptime_ms : Option Int
  debug : Option Bool
  last_pix_id : Option String
deriving DecidableEq, Repr

/-- The record appended to events[dev] by the event route. -/
structure EventRec where
  ts : String
  ty : Option String
  payment_id : Option String
  raw : IntakeBody
deriving DecidableEq, Repr

/-- The record appended to logs[dev] by the log route. -/
structure LogRec where
  ts : String
  ty : Option String
  message : Option String
  raw : IntakeBody
deriving DecidableEq, Repr

/-- The device registry: the module level dicts last_seen, events and
logs of src/app.py, modelled as functions from device id. -/
structure RegState where
  last_seen : String → Option HeartbeatRec
  events : String → List EventRec
  logs : String → List LogRec

/-- The heartbeat route of src/app.py (lines 100-116).  xAuth is the
X-Auth header (none when absent), secret is MONITOR_SECRET, body is the
parsed JSON body (none when the body is not JSON), nowIso is the
datetime.utcnow().isoformat() string.  Returns the HTTP status code and
the new registry state. -/
def heartbeat (secret : String) (xAuth : Option String) (body : Option IntakeBody)
    (nowIso : String) (st : RegState) : Nat × RegState :=
  if ¬ xAuth = some secret then (401, st)
  else
    let data := body.getD emptyBody
    match data.device_id with
    | none => (400, st)
    | some dev =>
      if dev = "" then (400, st)
      else
        let r : HeartbeatRec :=
          ⟨nowIso, data.ip, data.rssi, data.uptime_ms, data.debug, data.last_pix_id⟩
        (200, ⟨fun d => if d = dev then some r else st.last_seen d, st.events, st.logs⟩)

/-- The event route of src/app.py (lines 118-134). -/
def event (secret : String) (xAuth : Option String) (body : Option IntakeBody)
    (nowIso : String) (st : RegState) : Nat × RegState :=
  if ¬ xAuth = some secret then (401, st)
  else
    let data := body.getD emptyBody
    match data.device_id with
    | none => (400, st)
    | some dev =>
      if dev = "" then (400, st)
      else
        let r : EventRec := ⟨nowIso, data.ty, data.payment_id, data⟩
        (200, ⟨st.last_seen,
               fun d => if d = dev then st.events d ++ [r] else st.events d,
               st.logs⟩)

/-- The log route of src/app.py (lines 136-152). -/
def log (secret : String) (xAuth : Option String) (body : Option IntakeBody)
    (nowIso : String) (st : RegState) : Nat × RegState :=
  if ¬ xAuth = some secret then (401, st)
  else
    let data := body.getD emptyBody
    match data.device_id with
    | none => (400, st)
    | some dev =>
      if dev = "" then (400, st)
      else
        let r : LogRec := ⟨nowIso, data.ty, data.message, data⟩
        (200, ⟨st.last_seen, st.events,
               fun d => if d = dev then st.logs d ++ [r] else st.logs d⟩)

/-- One entry of the JSON answer of the status routes, restricted to the
fields the claims are about.  The passthrough metadata fields (ip, rssi,
uptime, debug, last_pix_id, event and log counts) are independent of the
online computation and are omitted. -/
structure StatusView where
  device_id : String
  last_seen : String
  online : Bool
deriving DecidableEq, Repr

/-- The per-device body of the status route of src/app.py
(lines 175-193): parse the stored isoformat timestamp, falling back to
now when datetime.fromisoformat raises, and derive
online = (now - ts) < timedelta(minutes=3).  Time is in seconds, parse
models datetime.fromisoformat. -/
def mkView (parse : String → Option Int) (now : Int) (dev : String)
    (info : HeartbeatRec) : StatusView :=
  let ts : Int :=
    match parse info.ts with
    | some t => t
    | none => now
  ⟨dev, info.ts, decide (now - ts < 180)⟩

/-- Insert one view into a list sorted by device_id. -/
def insertSorted (v : StatusView) : List StatusView → List StatusView
  | [] => [v]
  | w :: ws => if v.device_id ≤ w.device_id then v :: w :: ws else w :: insertSorted v ws

/-- Sort views by device_id, modelling sorted(out, key=device_id). -/
def sortViews : List StatusView → List StatusView
  | [] => []
  | v :: vs => insertSorted v (sortViews vs)

/-- The status route of src/app.py (lines 172-195): one view per entry
of last_seen.items(), sorted by device_id. -/
def statusList (parse : String → Option Int) (now : Int)
    (devs : List (String × HeartbeatRec)) : List StatusView :=
  sortViews (devs.map fun q => mkView parse now q.1 q.2)

/-- The single device status route of src/app.py (lines 197-218):
none models the 404 branch, otherwise the online flag is derived with
the same fallback to now on a parse failure. -/
def status_device (parse : String → Option Int) (now : Int)
    (reg : String → Option HeartbeatRec) (device_id : String) : Option StatusView :=
  match reg device_id with
  | none => none
  | some info =>
    let ts : Int :=
      match parse info.ts with
      | some t => t
      | none => now
    some ⟨device_id, info.ts, decide (now - ts < 180)⟩

/-- Shared state and program counters of two concurrent pipeline runs
processing the same payment identifier.  inStore is whether the
identifier is in processed_ids, notifyCount counts notifier invocations. -/
structure Sys where
  inStore : Bool
  notifyCount : Nat
  pc1 : Nat
  pc2 : Nat
deriving DecidableEq, Repr

/-- One atomic step of one run, at the granularity the locking of
buscar_pagamentos_once in src/app.py gives (lines 256-272): each
`with processed_lock` block is one atomic action, everything between
the blocks can interleave.
pc 0: membership check under the lock (to pc 6 when present, else pc 1);
pc 1: classification, local, the element qualifies in this scenario;
pc 2: insertion under the lock;
pc 3: save_processed;
pc 4: notifier invocation;
pc 5: done after notifying; pc 6: done after skipping. -/
def threadStep (inStore : Bool) (cnt : Nat) (pc : Nat) : Bool × Nat × Nat :=
  match pc with
  | 0 => if inStore then (inStore, cnt, 6) else (inStore, cnt, 1)
  | 1 => (inStore, cnt, 2)
  | 2 => (true, cnt, 3)
  | 3 => (inStore, cnt, 4)
  | 4 => (inStore, cnt + 1, 5)
  | _ => (inStore, cnt, pc)

/-- Scheduler step: true steps run one, false steps run two. -/
def sysStep (c : Sys) (t : Bool) : Sys :=
  if t then
    let r := threadStep c.inStore c.notifyCount c.pc1
    { inStore := r.1, notifyCount := r.2.1, pc1 := r.2.2, pc2 := c.pc2 }
  else
    let r := threadStep c.inStore c.notifyCount c.pc2
    { inStore := r.1, notifyCount := r.2.1, pc1 := c.pc1, pc2 := r.2.2 }

/-- Run a schedule (a list of scheduler choices) from a configuration. -/
def runSched (c : Sys) : List Bool → Sys
  | [] => c
  | t :: ts => runSched (sysStep c t) ts

/-- Both runs at the start, identifier not yet in the store. -/
def initSys : Sys :=
  { inStore := false, notifyCount := 0, pc1 := 0, pc2 := 0 }

/-- 1 when a run has completed its notifier invocation (pc 5), else 0. -/
def notifDone (pc : Nat) : Nat := if pc = 5 then 1 else 0

/-! Helper lemmas about the pipeline. -/

theorem memStr_cons_self (pid : String) (s : List String) :
    memStr (pid :: s) pid = true := by
  simp [memStr]

theorem processElement_skip_mem (s : List String) (p : Payment) (pid : String)
    (hid : p.id = some pid) (hs : memStr s pid = true) :
    processElement s p = (s, []) := by
  simp [processElement, hid, hs]

theorem processElementB_skip_mem (s : List String) (p : Payment) (pid : String)
    (hid : pyStr p.id = pid) (hs : memStr s pid = true) :
    processElementB s p = (s, []) := by
  simp [processElementB, hid, hs]

theorem processElement_fresh (s : List String) (p : Payment) (pid : String)
    (hid : p.id = some pid) (hne : pid ≠ "") (hfresh : memStr s pid = false)
    (hst : p.status = some "approved") (hm : p.payment_method_id = some "pix") :
    processElement s p = (pid :: s, [Act.insert pid, Act.persist, Act.notify pid]) := by
  simp [processElement, hid, hne, hfresh, hst, hm]

theorem processElementB_fresh (s : List String) (p : Payment) (pid : String)
    (hid : pyStr p.id = pid) (hne : pid ≠ "") (hfresh : memStr s pid = false)
    (hst : p.status = some "approved") (hm : p.payment_method_id = some "pix") :
    processElementB s p = (pid :: s, [Act.insert pid, Act.persist, Act.notify pid]) := by
  simp [processElementB, hid, hne, hfresh, hst, hm]

theorem iterate_mem_zero (p : Payment) (pid : String) (hid : p.id = some pid) :
    ∀ (n : Nat) (s : List String), memStr s pid = true →
      iterateWith processElement n s p = (s, 0) := by
  intro n
  induction n with
  | zero => intro s _; rfl
  | succ m ih =>
    intro s hs
    simp [iterateWith, processElement_skip_mem s p pid hid hs, ih s hs, notifyCount]

theorem iterateB_mem_zero (p : Payment) (pid : String) (hid : pyStr p.id = pid) :
    ∀ (n : Nat) (s : List String), memStr s pid = true →
      iterateWith processElementB n s p = (s, 0) := by
  intro n
  induction n with
  | zero => intro s _; rfl
  | succ m ih =>
    intro s hs
    simp [iterateWith, processElementB_skip_mem s p pid hid hs, ih s hs, notifyCount]

/-- C1: delivering the same payment event to the poll pipeline n times,
where on the first run the element qualifies (status approved, method
pix, identifier fresh and non-empty), invokes the notifier exactly once
across all n runs, and once the identifier is in the dedup store every
run is a no-op that keeps the store and performs no action.  Holds for
the pipelines of both src/app.py and src/backend/app.py. -/
theorem c1_pipeline_idempotent (n : Nat) (s : List String) (p : Payment) (pid : String)
    (hn : 1 ≤ n) (hid : p.id = some pid) (hne : pid ≠ "")
    (hfresh : memStr s pid = false)
    (hst : p.status = some "approved") (hm : p.payment_method_id = some "pix") :
    (iterateWith processElement n s p).2 = 1
    ∧ (iterateWith processElementB n s p).2 = 1
    ∧ (∀ t : List String, memStr t pid = true →
        processElement t p = (t, []) ∧ processElementB t p = (t, [])) := by
  have hid2 : pyStr p.id = pid := by simp [pyStr, hid]
  cases n with
  | zero => exact absurd hn (by omega)
  | succ m =>
    refine ⟨?_, ?_, fun t ht =>
      ⟨processElement_skip_mem t p pid hid ht, processElementB_skip_mem t p pid hid2 ht⟩⟩
    · simp [iterateWith, processElement_fresh s p pid hid hne hfresh hst hm,
        iterate_mem_zero p pid hid m (pid :: s) (memStr_cons_self pid s), notifyCount]
    · simp [iterateWith, processElementB_fresh s p pid hid2 hne hfresh hst hm,
        iterateB_mem_zero p pid hid2 m (pid :: s) (memStr_cons_self pid s), notifyCount]

/-- Witness for C1 at a concrete input: three deliveries of an approved
pix payment with fresh identifier 123 invoke the notifier exactly once. -/
theorem c1_pipeline_idempotent_witness :
    (1 ≤ 3 ∧ (Payment.mk (some "123") (some "approved") (some "pix") none).id = some "123"
      ∧ ("123" : String) ≠ "" ∧ memStr [] "123" = false)
    ∧ (iterateWith processElement 3 [] (Payment.mk (some "123") (some "approved") (some "pix") none)).2 = 1 :=
  ⟨⟨by omega, rfl, by decide, rfl⟩,
    (c1_pipeline_idempotent 3 [] (Payment.mk (some "123") (some "approved") (some "pix") none)
      "123" (by omega) rfl (by decide) rfl rfl rfl).1⟩

theorem trace_shape_aux (s : List String) (pid0 : String) (j : Nat) (pid : String)
    (hj : [Act.insert pid0, Act.persist, Act.notify pid0].get? j = some (Act.notify pid)) :
    (∃ i, i < j ∧ [Act.insert pid0, Act.persist, Act.notify pid0].get? i = some (Act.insert pid))
    ∧ (∃ k, k < j ∧ [Act.insert pid0, Act.persist, Act.notify pid0].get? k = some Act.persist)
    ∧ memStr (replayStore s ([Act.insert pid0, Act.persist, Act.notify pid0].take j)) pid = true := by
  match j, hj with
  | 2, hj =>
    have hpid : pid = pid0 := by simpa using hj.symm
    subst hpid
    exact ⟨⟨0, by omega, rfl⟩, ⟨1, by omega, rfl⟩, by
      simp [replayStore, memStr_cons_self]⟩

/-- C2: in one pipeline run on one batch element, whenever the notifier
is invoked for an identifier, the insertion of that identifier into the
dedup store and the persist both occur strictly earlier in the action
sequence, and the identifier is already in the replayed store at the
moment of the invocation.  Holds for both revisions. -/
theorem c2_insert_precedes_notify (s : List String) (p : Payment) (j : Nat) (pid : String) :
    ((processElement s p).2.get? j = some (Act.notify pid) →
      (∃ i, i < j ∧ (processElement s p).2.get? i = some (Act.insert pid))
      ∧ (∃ k, k < j ∧ (processElement s p).2.get? k = some Act.persist)
      ∧ memStr (replayStore s ((processElement s p).2.take j)) pid = true)
    ∧ ((processElementB s p).2.get? j = some (Act.notify pid) →
      (∃ i, i < j ∧ (processElementB s p).2.get? i = some (Act.insert pid))
      ∧ (∃ k, k < j ∧ (processElementB s p).2.get? k = some Act.persist)
      ∧ memStr (replayStore s ((processElementB s p).2.take j)) pid = true) := by
  constructor
  · intro hj
    rcases hp : p.id with _ | pid0
    · simp [processElement, hp] at hj
    · by_cases h1 : pid0 = ""
      · simp [processElement, hp, h1] at hj
      · cases hmem : memStr s pid0 with
        | true =>
          rw [processElement_skip_mem s p pid0 hp hmem] at hj
          simp at hj
        | false =>
          by_cases h3 : p.status = some "approved" ∧ p.payment_method_id = some "pix"
          · have heq := processElement_fresh s p pid0 hp h1 hmem h3.1 h3.2
            rw [heq] at hj ⊢
            exact trace_shape_aux s pid0 j pid hj
          · simp [processElement, hp, h1, hmem, h3] at hj
  · intro hj
    cases hmem : memStr s (pyStr p.id) with
    | true =>
      rw [processElementB_skip_mem s p (pyStr p.id) rfl hmem] at hj
      simp at hj
    | false =>
      by_cases h1 : pyStr p.id = ""
      · simp [processElementB, h1] at hj
      · by_cases h3 : p.status = some "approved" ∧ p.payment_method_id = some "pix"
        · have heq := processElementB_fresh s p (pyStr p.id) rfl h1 hmem h3.1 h3.2
          rw [heq] at hj ⊢
          exact trace_shape_aux s (pyStr p.id) j pid hj
        · simp [processElementB, h1, hmem, h3] at hj

/-- Witness for C2 at a concrete input: in the run on the qualifying
payment 123 the notifier invocation sits at position 2 of the action
sequence, and the insertion at position 0 precedes it. -/
theorem c2_insert_precedes_notify_witness :
    ((processElement [] (Payment.mk (some "123") (some "approved") (some "pix") none)).2.get? 2
        = some (Act.notify "123"))
    ∧ ((∃ i, i < 2 ∧ (processElement [] (Payment.mk (some "123") (some "approved") (some "pix") none)).2.get? i
          = some (Act.insert "123"))
      ∧ (∃ k, k < 2 ∧ (processElement [] (Payment.mk (some "123") (some "approved") (some "pix") none)).2.get? k
          = some Act.persist)
      ∧ memStr (replayStore []
          ((processElement [] (Payment.mk (some "123") (some "approved") (some "pix") none)).2.take 2)) "123" = true) :=
  ⟨by decide,
    (c2_insert_precedes_notify [] (Payment.mk (some "123") (some "approved") (some "pix") none)
      2 "123").1 (by decide)⟩

/-- C3 counterexample: the classification the specification describes
and the classification the code performs disagree at a concrete input.
A payment with status paid and payment method pix qualifies under the
spec wording (paid is in the approved set, pix occurs in the method),
but both pipelines skip it without any action, because the code compares
status with the single literal approved by case-sensitive equality. -/
theorem c3_classification_counterexample :
    spec_qualifies "paid" "pix" "" = true
    ∧ processElement [] (Payment.mk (some "77") (some "paid") (some "pix") none) = ([], [])
    ∧ processElementB [] (Payment.mk (some "77") (some "paid") (some "pix") none) = ([], []) := by
  refine ⟨by decide, by decide, by decide⟩

/-- C3 amended: classification in the code is the case-sensitive test
status == "approved" and payment_method_id == "pix"; payment_type_id is
never consulted and the statuses paid and paid_off are not accepted.
For a fresh non-empty identifier, the run acts (insert, persist, notify)
exactly when both equalities hold, and is a silent no-op otherwise.
Holds for both revisions. -/
theorem c3_classification_exact (s : List String) (p : Payment) (pid : String)
    (hid : p.id = some pid) (hne : pid ≠ "") (hfresh : memStr s pid = false) :
    (p.status = some "approved" ∧ p.payment_method_id = some "pix" →
      processElement s p = (pid :: s, [Act.insert pid, Act.persist, Act.notify pid])
      ∧ processElementB s p = (pid :: s, [Act.insert pid, Act.persist, Act.notify pid]))
    ∧ (¬ (p.status = some "approved" ∧ p.payment_method_id = some "pix") →
      processElement s p = (s, []) ∧ processElementB s p = (s, [])) := by
  have hid2 : pyStr p.id = pid := by simp [pyStr, hid]
  constructor
  · intro h3
    exact ⟨processElement_fresh s p pid hid hne hfresh h3.1 h3.2,
      processElementB_fresh s p pid hid2 hne hfresh h3.1 h3.2⟩
  · intro h3
    constructor
    · simp [processElement, hid, hne, hfresh, h3]
    · simp [processElementB, hid2, hne, hfresh, h3]

/-- Witness for C3 amended at a concrete input: a payment with status
rejected and method pix is skipped with no action by the main pipeline. -/
theorem c3_classification_exact_witness :
    ((Payment.mk (some "9") (some "rejected") (some "pix") none).id = some "9"
      ∧ ("9" : String) ≠ "" ∧ memStr [] "9" = false
      ∧ ¬ ((Payment.mk (some "9") (some "rejected") (some "pix") none).status = some "approved"
            ∧ (Payment.mk (some "9") (some "rejected") (some "pix") none).payment_method_id = some "pix"))
    ∧ processElement [] (Payment.mk (some "9") (some "rejected") (some "pix") none) = ([], []) :=
  ⟨⟨rfl, by decide, rfl, by decide⟩,
    ((c3_classification_exact [] (Payment.mk (some "9") (some "rejected") (some "pix") none)
      "9" rfl (by decide) rfl).2 (by decide)).1⟩

/-! Helper lemmas for the notifier. -/

theorem notifyGo_all_fail (t : Nat → ReqOutcome) :
    ∀ (fuel made : Nat),
      (∀ k, made + 1 ≤ k → k ≤ made + fuel → attemptSucceeds (t k) = false) →
      notifyGo t fuel made = (false, made + fuel) := by
  intro fuel
  induction fuel with
  | zero => intro made _; simp [notifyGo]
  | succ f ih =>
    intro made h
    have h1 : attemptSucceeds (t (made + 1)) = false := h (made + 1) (by omega) (by omega)
    have h2 := ih (made + 1) (fun k hk1 hk2 => h k (by omega) (by omega))
    simp only [notifyGo, h1, Bool.false_eq_true, if_false, h2]
    simp only [Prod.mk.injEq, true_and]
    omega

theorem notifyGo_first_succ (t : Nat → ReqOutcome) :
    ∀ (j fuel made : Nat), j < fuel →
      (∀ k, made + 1 ≤ k → k ≤ made + j → attemptSucceeds (t k) = false) →
      attemptSucceeds (t (made + j + 1)) = true →
      notifyGo t fuel made = (true, made + j + 1) := by
  intro j
  induction j with
  | zero =>
    intro fuel made hj hfail hsucc
    cases fuel with
    | zero => omega
    | succ f =>
      have hs : attemptSucceeds (t (made + 1)) = true := by
        have : made + 0 + 1 = made + 1 := by omega
        rw [this] at hsucc; exact hsucc
      simp [notifyGo, hs]
  | succ i ih =>
    intro fuel made hj hfail hsucc
    cases fuel with
    | zero => omega
    | succ f =>
      have h1 : attemptSucceeds (t (made + 1)) = false := hfail (made + 1) (by omega) (by omega)
      have hs : attemptSucceeds (t (made + 1 + i + 1)) = true := by
        have : made + 1 + i + 1 = made + (i + 1) + 1 := by omega
        rw [this]; exact hsucc
      have h2 := ih f (made + 1) (by omega)
        (fun k hk1 hk2 => hfail k (by omega) (by omega)) hs
      simp only [notifyGo, h1, Bool.false_eq_true, if_false, h2]
      simp only [Prod.mk.injEq, true_and]
      omega

/-- C4 counterexample: the backend notifier notificar_esp makes exactly
one delivery attempt even when it fails, not the default two the claim
requires: with a transport on which every attempt raises, it reports
failure after one attempt while notify_esp_play with the default retry
count makes two. -/
theorem c4_notifier_counterexample :
    (notificar_esp (fun _ => ReqOutcome.exc)).2 = 1
    ∧ (notify_esp_play (fun _ => ReqOutcome.exc) NOTIFY_RETRY_default).2 = 2
    ∧ (1 : Nat) ≠ 2 := by
  refine ⟨rfl, rfl, by omega⟩

/-- C4 amended: the main revision notifier notify_esp_play makes up to
maxAttempts sequential attempts: exactly maxAttempts attempts before
returning failure when every attempt fails, and immediate success on the
first attempt that returns 200 or 204 with no further attempts.  The
backend revision notifier notificar_esp always makes exactly one
attempt. -/
theorem c4_notifier_attempts (t : Nat → ReqOutcome) (m : Nat) :
    ((∀ k, 1 ≤ k → k ≤ m → attemptSucceeds (t k) = false) →
      notify_esp_play t m = (false, m))
    ∧ (∀ j, j < m → (∀ k, 1 ≤ k → k ≤ j → attemptSucceeds (t k) = false) →
        attemptSucceeds (t (j + 1)) = true →
        notify_esp_play t m = (true, j + 1))
    ∧ (notificar_esp t).2 = 1 := by
  refine ⟨?_, ?_, rfl⟩
  · intro h
    have := notifyGo_all_fail t m 0 (fun k hk1 hk2 => h k (by omega) (by omega))
    simpa [notify_esp_play] using this
  · intro j hj hfail hsucc
    have := notifyGo_first_succ t j m 0 hj
      (fun k hk1 hk2 => hfail k (by omega) (by omega)) (by simpa using hsucc)
    simpa [notify_esp_play] using this

/-- Witness for C4 amended at a concrete input: with an always-failing
transport and two allowed attempts, notify_esp_play reports failure
after exactly two attempts. -/
theorem c4_notifier_attempts_witness :
    (∀ k, 1 ≤ k → k ≤ 2 → attemptSucceeds ((fun _ => ReqOutcome.exc) k) = false)
    ∧ notify_esp_play (fun _ => ReqOutcome.exc) 2 = (false, 2) :=
  ⟨fun _ _ _ => rfl,
    (c4_notifier_attempts (fun _ => ReqOutcome.exc) 2).1 (fun _ _ _ => rfl)⟩

/-- C5 counterexample: with a parser on which the stored content is
unparsable (json.load raises), the backend load_processed propagates the
exception instead of yielding an empty set, because its body has no
try/except. -/
theorem c5_load_counterexample :
    load_processed_backend (fun c => if c = "[]" then some [] else none) [] (some "not json")
      = Except.error () := by
  rfl

/-- C5 amended: in src/app.py, load never raises: a missing file and an
unparsable file both leave the in-memory set as it was (empty at
startup), and a valid file yields exactly the persisted set.  In
src/backend/app.py, a missing file leaves the set as it was, a valid
file adds the persisted identifiers, but an unparsable file raises an
uncaught exception. -/
theorem c5_load_behaviour (parse : String → Option (List String)) (prev : List String) :
    load_processed parse prev none = prev
    ∧ (∀ c, parse c = none → load_processed parse prev (some c) = prev)
    ∧ (∀ c arr, parse c = some arr → load_processed parse prev (some c) = arr)
    ∧ load_processed_backend parse prev none = Except.ok prev
    ∧ (∀ c arr, parse c = some arr →
        load_processed_backend parse prev (some c) = Except.ok (prev ++ arr))
    ∧ (∀ c, parse c = none → load_processed_backend parse prev (some c) = Except.error ()) := by
  refine ⟨rfl, ?_, ?_, rfl, ?_, ?_⟩
  · intro c hc; simp [load_processed, load_body, hc]
  · intro c arr hc; simp [load_processed, load_body, hc]
  · intro c arr hc; simp [load_processed_backend, hc]
  · intro c hc; simp [load_processed_backend, hc]

/-- Witness for C5 amended at a concrete input: an unparsable file is
survived by the main revision load, which keeps the empty set. -/
theorem c5_load_behaviour_witness :
    ((fun c => if c = "[]" then some ([] : List String) else none) "not json" = none)
    ∧ load_processed (fun c => if c = "[]" then some [] else none) [] (some "not json") = [] :=
  ⟨by decide,
    (c5_load_behaviour (fun c => if c = "[]" then some [] else none) []).2.1 "not json" (by decide)⟩

/-! Helper lemmas for the status routes. -/

theorem mem_insertSorted (x v : StatusView) (l : List StatusView) :
    x ∈ insertSorted v l ↔ x = v ∨ x ∈ l := by
  induction l with
  | nil => simp [insertSorted]
  | cons w ws ih =>
    simp only [insertSorted]
    split
    · simp [List.mem_cons]
    · simp only [List.mem_cons, ih]
      tauto

theorem mem_sortViews (x : StatusView) (l : List StatusView) :
    x ∈ sortViews l ↔ x ∈ l := by
  induction l with
  | nil => simp [sortViews]
  | cons v vs ih => simp [sortViews, mem_insertSorted, ih]

theorem mkView_mem (parse : String → Option Int) (now : Int)
    (devs : List (String × HeartbeatRec)) (dev : String) (info : HeartbeatRec)
    (h : (dev, info) ∈ devs) :
    mkView parse now dev info ∈ statusList parse now devs := by
  unfold statusList
  rw [mem_sortViews]
  exact List.mem_map_of_mem _ h

theorem online_decide_recent (now : Int) : decide (now - (now - 179) < 180) = true := by
  simp only [decide_eq_true_eq]; omega

theorem online_decide_stale (now : Int) : decide (now - (now - 181) < 180) = false := by
  simp only [decide_eq_false_iff_not]; omega

theorem online_decide_self (now : Int) : decide (now - now < 180) = true := by
  simp only [decide_eq_true_eq]; omega

/-- C6: the online flag is derived at read time as now minus lastSeenAt
strictly below 180 seconds: a device last seen 179 seconds ago (2m59s)
is reported online and one last seen 181 seconds ago (3m01s) is reported
offline, in both the all-devices snapshot and the single-device query. -/
theorem c6_online_boundary (parse : String → Option Int) (now : Int)
    (devs : List (String × HeartbeatRec)) (reg : String → Option HeartbeatRec)
    (dev : String) (info : HeartbeatRec) :
    ((dev, info) ∈ devs → parse info.ts = some (now - 179) →
      mkView parse now dev info ∈ statusList parse now devs
      ∧ (mkView parse now dev info).online = true)
    ∧ ((dev, info) ∈ devs → parse info.ts = some (now - 181) →
      mkView parse now dev info ∈ statusList parse now devs
      ∧ (mkView parse now dev info).online = false)
    ∧ (reg dev = some info → parse info.ts = some (now - 179) →
      status_device parse now reg dev = some ⟨dev, info.ts, true⟩)
    ∧ (reg dev = some info → parse info.ts = some (now - 181) →
      status_device parse now reg dev = some ⟨dev, info.ts, false⟩) := by
  refine ⟨?_, ?_, ?_, ?_⟩
  · intro hm hp
    refine ⟨mkView_mem parse now devs dev info hm, ?_⟩
    simp [mkView, hp, online_decide_recent]
  · intro hm hp
    refine ⟨mkView_mem parse now devs dev info hm, ?_⟩
    simp [mkView, hp, online_decide_stale]
  · intro hr hp
    simp [status_device, hr, hp, online_decide_recent]
  · intro hr hp
    simp [status_device, hr, hp, online_decide_stale]

/-- Witness for C6 at a concrete input: with now at 200 seconds and a
stored timestamp parsing to 21 = 200 - 179, the single-device query
reports the device online. -/
theorem c6_online_boundary_witness :
    ((fun d => if d = "d1" then some (⟨"t1", none, none, none, none, none⟩ : HeartbeatRec) else none) "d1"
        = some (⟨"t1", none, none, none, none, none⟩ : HeartbeatRec)
      ∧ (fun s => if s = "t1" then some (21 : Int) else none) "t1" = some (200 - 179))
    ∧ status_device (fun s => if s = "t1" then some (21 : Int) else none) 200
        (fun d => if d = "d1" then some (⟨"t1", none, none, none, none, none⟩ : HeartbeatRec) else none) "d1"
        = some ⟨"d1", "t1", true⟩ :=
  ⟨⟨by decide, by decide⟩,
    (c6_online_boundary (fun s => if s = "t1" then some (21 : Int) else none) 200 []
      (fun d => if d = "d1" then some (⟨"t1", none, none, none, none, none⟩ : HeartbeatRec) else none)
      "d1" ⟨"t1", none, none, none, none, none⟩).2.2.1 (by decide) (by decide)⟩

/-- C10: a registry entry whose stored timestamp string fails to parse
is treated as last seen at the query time, so the device is reported
online regardless of the actual age of the entry, in both the snapshot
and the single-device query. -/
theorem c10_unparsable_ts_online (parse : String → Option Int) (now : Int)
    (devs : List (String × HeartbeatRec)) (reg : String → Option HeartbeatRec)
    (dev : String) (info : HeartbeatRec) :
    (parse info.ts = none → (dev, info) ∈ devs →
      mkView parse now dev info ∈ statusList parse now devs
      ∧ (mkView parse now dev info).online = true)
    ∧ (parse info.ts = none → reg dev = some info →
      status_device parse now reg dev = some ⟨dev, info.ts, true⟩) := by
  constructor
  · intro hp hm
    refine ⟨mkView_mem parse now devs dev info hm, ?_⟩
    simp [mkView, hp, online_decide_self]
  · intro hp hr
    simp [status_device, hr, hp, online_decide_self]

/-- Witness for C10 at a concrete input: with a parser that fails on
every stored string, the single-device query reports online. -/
theorem c10_unparsable_ts_online_witness :
    ((fun _ : String => (none : Option Int)) "bad-ts" = none
      ∧ (fun d => if d = "d2" then some (⟨"bad-ts", none, none, none, none, none⟩ : HeartbeatRec) else none) "d2"
          = some (⟨"bad-ts", none, none, none, none, none⟩ : HeartbeatRec))
    ∧ status_device (fun _ => none) 1000000
        (fun d => if d = "d2" then some (⟨"bad-ts", none, none, none, none, none⟩ : HeartbeatRec) else none) "d2"
        = some ⟨"d2", "bad-ts", true⟩ :=
  ⟨⟨rfl, by decide⟩,
    (c10_unparsable_ts_online (fun _ => none) 1000000 []
      (fun d => if d = "d2" then some (⟨"bad-ts", none, none, none, none, none⟩ : HeartbeatRec) else none)
      "d2" ⟨"bad-ts", none, none, none, none, none⟩).2 rfl (by decide)⟩

/-- C7: evaluation of both pipelines at the failing input, a batch
element with no id field, approved status and pix method.  The main
revision skips it silently with no action, as the claim states; the
backend revision computes pid = str(None) = "None", which passes the
`if not pid` guard, so the element is classified, the literal string
"None" is inserted into the dedup store, the store is persisted and the
notifier is invoked for it. -/
theorem c7_idless_element :
    processElement [] (Payment.mk none (some "approved") (some "pix") none) = ([], [])
    ∧ processElementB [] (Payment.mk none (some "approved") (some "pix") none)
        = (["None"], [Act.insert "None", Act.persist, Act.notify "None"]) := by
  refine ⟨by decide, by decide⟩

/-- C8: for every heartbeat, event or log intake request: a missing or
mismatched X-Auth header yields 401 with the registry unchanged; with a
good header, a body without a non-empty device_id yields 400 with the
registry unchanged; otherwise the response is 200 and the device entry
is created or updated (heartbeat replaces last_seen for the device,
event and log append to the respective per-device list). -/
theorem c8_intake_guards (secret : String) (xAuth : Option String)
    (body : Option IntakeBody) (nowIso : String) (st : RegState) :
    (¬ xAuth = some secret →
      heartbeat secret xAuth body nowIso st = (401, st)
      ∧ event secret xAuth body nowIso st = (401, st)
      ∧ log secret xAuth body nowIso st = (401, st))
    ∧ (xAuth = some secret →
        ((body.getD emptyBody).device_id = none ∨ (body.getD emptyBody).device_id = some "") →
      heartbeat secret xAuth body nowIso st = (400, st)
      ∧ event secret xAuth body nowIso st = (400, st)
      ∧ log secret xAuth body nowIso st = (400, st))
    ∧ (∀ dev, xAuth = some secret → (body.getD emptyBody).device_id = some dev → dev ≠ "" →
      (heartbeat secret xAuth body nowIso st).1 = 200
      ∧ (heartbeat secret xAuth body nowIso st).2.last_seen dev
          = some ⟨nowIso, (body.getD emptyBody).ip, (body.getD emptyBody).rssi,
                 (body.getD emptyBody).uptime_ms, (body.getD emptyBody).debug,
                 (body.getD emptyBody).last_pix_id⟩
      ∧ (event secret xAuth body nowIso st).1 = 200
      ∧ (event secret xAuth body nowIso st).2.events dev
          = st.events dev ++ [⟨nowIso, (body.getD emptyBody).ty,
                               (body.getD emptyBody).payment_id, body.getD emptyBody⟩]
      ∧ (log secret xAuth body nowIso st).1 = 200
      ∧ (log secret xAuth body nowIso st).2.logs dev
          = st.logs dev ++ [⟨nowIso, (body.getD emptyBody).ty,
                             (body.getD emptyBody).message, body.getD emptyBody⟩]) := by
  refine ⟨?_, ?_, ?_⟩
  · intro h
    refine ⟨?_, ?_, ?_⟩ <;> simp [heartbeat, event, log, h]
  · intro h hdev
    rcases hdev with hd | hd <;> refine ⟨?_, ?_, ?_⟩ <;>
      simp [heartbeat, event, log, h, hd]
  · intro dev h hdev hne
    refine ⟨?_, ?_, ?_, ?_, ?_, ?_⟩ <;>
      simp [heartbeat, event, log, h, hdev, hne]

/-- Witness for C8 at concrete inputs: a request without the X-Auth
header is rejected with 401 and an unchanged registry, and an
authenticated heartbeat for device esp1 answers 200. -/
theorem c8_intake_guards_witness :
    (¬ (none : Option String) = some "base123")
    ∧ heartbeat "base123" none (some emptyBody) "t0"
        ⟨fun _ => none, fun _ => [], fun _ => []⟩
        = (401, ⟨fun _ => none, fun _ => [], fun _ => []⟩)
    ∧ (heartbeat "base123" (some "base123")
        (some ⟨some "esp1", none, none, none, none, none, none, none, none⟩) "t0"
        ⟨fun _ => none, fun _ => [], fun _ => []⟩).1 = 200 :=
  ⟨by decide,
    ((c8_intake_guards "base123" none (some emptyBody) "t0"
      ⟨fun _ => none, fun _ => [], fun _ => []⟩).1 (by decide)).1,
    ((c8_intake_guards "base123" (some "base123")
      (some ⟨some "esp1", none, none, none, none, none, none, none, none⟩) "t0"
      ⟨fun _ => none, fun _ => [], fun _ => []⟩).2.2 "esp1" rfl rfl (by decide)).1⟩

/-- C9 counterexample: it is not the case that every interleaving of two
concurrent pipeline runs on the same fresh identifier invokes the
notifier at most once.  The schedule below lets both runs execute the
membership check (each under the lock, but in two separate critical
sections) before either inserts, so both observe the identifier as
absent and both notify. -/
theorem c9_check_insert_not_atomic :
    ¬ (∀ sched : List Bool, (runSched initSys sched).notifyCount ≤ 1) :=
  fun h =>
    absurd (h [true, false, true, true, true, true, false, false, false, false]) (by decide)

theorem sysStep_inv (c : Sys) (t : Bool)
    (h : c.notifyCount = notifDone c.pc1 + notifDone c.pc2) :
    (sysStep c t).notifyCount
      = notifDone (sysStep c t).pc1 + notifDone (sysStep c t).pc2 := by
  rcases c with ⟨s, n, p1, p2⟩
  cases t
  · rcases p2 with _|_|_|_|_|k <;> cases s <;>
      simp_all [sysStep, threadStep, notifDone]
  · rcases p1 with _|_|_|_|_|k <;> cases s <;>
      simp_all [sysStep, threadStep, notifDone]
    all_goals omega

theorem runSched_inv : ∀ (sched : List Bool) (c : Sys),
    c.notifyCount = notifDone c.pc1 + notifDone c.pc2 →
    (runSched c sched).notifyCount
      = notifDone (runSched c sched).pc1 + notifDone (runSched c sched).pc2 := by
  intro sched
  induction sched with
  | nil => intro c h; exact h
  | cons t ts ih => intro c h; exact ih (sysStep c t) (sysStep_inv c t h)

theorem notifDone_le_one (pc : Nat) : notifDone pc ≤ 1 := by
  unfold notifDone; split <;> omega

/-- C9 amended: in buscar_pagamentos_once the membership check and the
insertion are each executed atomically under the store lock, but as two
separate critical sections; hence two concurrent pipeline runs on the
same fresh identifier can both observe the identifier as absent and the
notifier can be invoked twice for it, though never more than twice. -/
theorem c9_double_notify_possible :
    (∃ sched : List Bool, (runSched initSys sched).notifyCount = 2)
    ∧ (∀ sched : List Bool, (runSched initSys sched).notifyCount ≤ 2) := by
  constructor
  · exact ⟨[true, false, true, true, true, true, false, false, false, false], by decide⟩
  · intro sched
    have h := runSched_inv sched initSys (by simp [initSys, notifDone])
    have h1 := notifDone_le_one (runSched initSys sched).pc1
    have h2 := notifDone_le_one (runSched initSys sched).pc2
    omega
